import Mathlib

/-!
Shallow embedding of `src/camera_driver.cpp` from the flir_spinnaker_ros2
repository, covering the parts relevant to the frozen claims: the typed
setting applier (`setDouble` verification), the parameter-file registry
(`readParameterFile`), the parameter-change handler (`parameterChanged`),
the control-state synchronizer (`controlCallback`), the frame handoff
queue (`publishImage` / the consumer pop in `run`), the status report
(`printStatus`), and the startup sequence (`start`).

Modelling conventions: C++ `double`/`float` values are embedded as `ℚ`
(the claims only involve arithmetic comparisons far from rounding
boundaries); the device driver (an external collaborator) is an explicit
oracle argument giving, for each call, either a thrown structured
exception or the returned status string and read-back value; log output
is not modelled except where a claim counts warnings.  The companion
header `camera_driver.h` is not part of the sources; the few facts taken
from it are noted at their definition and follow the spec's data model.
-/

namespace FlirSpinnaker

/-- Node value kinds, from `CameraDriver::NodeInfo` (camera_driver.cpp lines
94-111).  The `INVALID` default for an unrecognized kind string comes from
the header (not in the sources); modelled from the spec: "any other token
yields a descriptor with no effective type", matching the `default:` branch
of `setParameter`. -/
inductive NodeType where
  | FLOAT
  | INT
  | BOOL
  | ENUM
  | INVALID
  deriving DecidableEq

/-- `CameraDriver::NodeInfo`: device node name plus value kind.  The ROS
parameter descriptor member is framework plumbing and is not modelled. -/
structure NodeInfo where
  name : String
  type : NodeType
  deriving DecidableEq

/-- The `NodeInfo(n, nodeType)` constructor (lines 94-111): the kind string
selects the type; anything else leaves the descriptor without an effective
type (`INVALID`). -/
def NodeInfo.ofStrings (n nodeType : String) : NodeInfo :=
  if nodeType = "float" then ⟨n, NodeType.FLOAT⟩
  else if nodeType = "int" then ⟨n, NodeType.INT⟩
  else if nodeType = "bool" then ⟨n, NodeType.BOOL⟩
  else if nodeType = "enum" then ⟨n, NodeType.ENUM⟩
  else ⟨n, NodeType.INVALID⟩

/-- `parameterMap_.find(k)`: association-list lookup by logical name. -/
def lookupParam (pmap : List (String × NodeInfo)) (k : String) : Option NodeInfo :=
  match pmap.find? (fun kv => kv.1 == k) with
  | some kv => some kv.2
  | none => none

/-- `std::map::insert` semantics used by `readParameterFile`: inserting an
already-present key leaves the map unchanged (no overwrite). -/
def mapInsert (m : List (String × NodeInfo)) (k : String) (v : NodeInfo) :
    List (String × NodeInfo) :=
  match lookupParam m k with
  | some _ => m
  | none => m ++ [(k, v)]

/-- Success computation of `CameraDriver::setDouble` (lines 276-291), given
the requested value `v` and the device's response (`msg`, read-back `retV`):
status starts true, is cleared if the status string is not "OK", and is
cleared if the round-trip disagreement exceeds the relative tolerance
`0.025 * |v + retV|`. -/
def setDouble (v retV : ℚ) (msg : String) : Bool :=
  let status := true
  let status := if msg ≠ "OK" then false else status
  let status := if |v - retV| > (0.025 : ℚ) * |v + retV| then false else status
  status

/-- Success computation of `CameraDriver::setInt` (lines 293-308): "OK"
status and exact round-trip equality. -/
def setInt (v retV : ℤ) (msg : String) : Bool :=
  let status := true
  let status := if msg ≠ "OK" then false else status
  let status := if v ≠ retV then false else status
  status

/-! ### Frame handoff queue (`publishImage`, consumer pop in `run`) -/

/-- State protected by `mutex_`: the bounded frame queue (`imageQueue_`,
back of the list = most recently pushed) and the drop counter
(`droppedCount_`).  Frames are opaque; `α` stands for the frame handle. -/
structure QueueState (α : Type) where
  imageQueue : List α
  droppedCount : ℕ
  deriving DecidableEq

/-- Producer push, `CameraDriver::publishImage` (lines 445-456): under the
lock, if the queue holds fewer than 2 frames append the incoming frame
(and signal), otherwise increment the drop counter and discard the
incoming frame. -/
def publishImage {α : Type} (st : QueueState α) (im : α) : QueueState α :=
  if st.imageQueue.length < 2 then
    { st with imageQueue := st.imageQueue ++ [im] }
  else
    { st with droppedCount := st.droppedCount + 1 }

/-- Consumer pop, from the locked section of `CameraDriver::run` (lines
463-474): if the queue is non-empty take `back()` and `pop_back()`;
otherwise (timeout wake with empty queue) nothing happens. -/
def popImage {α : Type} (st : QueueState α) : Option α × QueueState α :=
  if st.imageQueue.isEmpty then (none, st)
  else (st.imageQueue.getLast?, { st with imageQueue := st.imageQueue.dropLast })

/-- A producer push or a consumer pop. -/
inductive QueueOp (α : Type) where
  | push (im : α)
  | pop

/-- One queue operation applied to the shared state. -/
def applyOp {α : Type} (st : QueueState α) : QueueOp α → QueueState α
  | QueueOp.push im => publishImage st im
  | QueueOp.pop => (popImage st).2

/-- A whole interleaving of pushes and pops. -/
def runOps {α : Type} (ops : List (QueueOp α)) (st : QueueState α) : QueueState α :=
  ops.foldl applyOp st

/-! ### Parameter registry (`readParameterFile`, lines 209-238) -/

/-- The registry built by `readParameterFile`: the logical-name map
(`parameterMap_`), the ordered list of logical names (`parameterList_`),
and the number of "skipping bad camera param line" warnings logged. -/
structure RegistryState where
  parameterMap : List (String × NodeInfo)
  parameterList : List String
  warnCount : ℕ
  deriving DecidableEq

/-- One iteration of the `getline` loop (lines 217-235), applied to the
line's tokens as produced by the `std::quoted` tokenizer: an empty token
list (blank line) does nothing; a first token starting with `#` is a
comment and is skipped; any other token count than 3 logs a warning and
skips; a 3-token line `{logical, kind, node}` is inserted into the map and
appended to the ordered list. -/
def processLine (st : RegistryState) (tokens : List String) : RegistryState :=
  match tokens with
  | [] => st
  | t0 :: rest =>
    if ¬t0.isEmpty ∧ t0.front = '#' then st
    else
      match rest with
      | [t1, t2] =>
        { st with
          parameterMap := mapInsert st.parameterMap t0 (NodeInfo.ofStrings t2 t1),
          parameterList := st.parameterList ++ [t0] }
      | _ => { st with warnCount := st.warnCount + 1 }

/-- `CameraDriver::readParameterFile` (lines 209-238).  The file is `none`
when it cannot be opened (the function then returns false, here `none`);
otherwise it is the list of lines, each already split into tokens, and the
whole file is folded through `processLine`, always succeeding. -/
def readParameterFile (file : Option (List (List String))) : Option RegistryState :=
  match file with
  | none => none
  | some lines => some (lines.foldl processLine ⟨[], [], 0⟩)

/-- A line that `processLine` registers: non-blank, not a comment, exactly
3 tokens. -/
def wellFormedLine (tokens : List String) : Bool :=
  match tokens with
  | [] => false
  | t0 :: rest =>
    if ¬t0.isEmpty ∧ t0.front = '#' then false
    else decide (rest.length = 2)

/-- A line that draws the "skipping bad camera param line" warning:
non-blank, not a comment, token count different from 3. -/
def warnedLine (tokens : List String) : Bool :=
  match tokens with
  | [] => false
  | t0 :: rest =>
    if ¬t0.isEmpty ∧ t0.front = '#' then false
    else decide (rest.length ≠ 2)

/-- First token of a line (its logical name when well-formed). -/
def firstToken (tokens : List String) : String := tokens.headD ""

/-! ### Typed setting applier dispatch (`setParameter`, `parameterChanged`) -/

/-- Incoming dynamic parameter value (`rclcpp::Parameter`): not set, or a
string / double / integer / boolean payload. -/
inductive ParamValue where
  | notSet
  | str (s : String)
  | double (v : ℚ)
  | int (v : ℤ)
  | bool (b : Bool)
  deriving DecidableEq

/-- A changed parameter in a batch: logical name plus dynamic value. -/
structure Param where
  name : String
  value : ParamValue
  deriving DecidableEq

/-- A call into the device driver made by `setParameter`'s branches. -/
inductive DevCall where
  | enumCall (node : String) (val : String)
  | doubleCall (node : String) (val : ℚ)
  | intCall (node : String) (val : ℤ)
  | boolCall (node : String) (val : Bool)
  deriving DecidableEq

/-- `get_double_int_param` (lines 66-78): accept a double as itself or an
integer coerced to double; anything else is rejected. -/
def get_double_int_param (v : ParamValue) : Option ℚ :=
  match v with
  | ParamValue.double x => some x
  | ParamValue.int i => some (i : ℚ)
  | _ => none

/-- `get_bool_int_param` (lines 80-92): accept a boolean as itself or an
integer coerced via C++ `static_cast<bool>` (nonzero = true). -/
def get_bool_int_param (v : ParamValue) : Option Bool :=
  match v with
  | ParamValue.bool b => some b
  | ParamValue.int i => some (decide (i ≠ 0))
  | _ => none

/-- C++ `double` → `int` conversion used in `setInt(ni.name, bd.second)`
(line 350): truncation toward zero. -/
def truncToInt (q : ℚ) : ℤ := Int.tdiv q.num (q.den : ℤ)

/-- The external framework's `Parameter::value_to_string` (an outside
collaborator, not in the sources): the textual rendering that the ENUM
branch of `setParameter` receives. -/
def valueToString (v : ParamValue) : String :=
  match v with
  | ParamValue.notSet => "not set"
  | ParamValue.str s => s
  | ParamValue.double x => toString x
  | ParamValue.int i => toString i
  | ParamValue.bool b => toString b

/-- The quote removal of the ENUM branch (line 334): erase every `"`. -/
def stripQuotes (s : String) : String := String.mk (s.toList.filter (fun c => c ≠ '"'))

/-- `CameraDriver::setParameter` (lines 327-368) viewed as the device
call it issues: ENUM forwards the de-quoted string; FLOAT/INT go through
`get_double_int_param` (warn and no call on a bad representation), INT
truncating the double to int; BOOL goes through `get_bool_int_param`; an
invalid node type warns and makes no call. -/
def setParameterCalls (ni : NodeInfo) (p : Param) : List DevCall :=
  match ni.type with
  | NodeType.ENUM => [DevCall.enumCall ni.name (stripQuotes (valueToString p.value))]
  | NodeType.FLOAT =>
    match get_double_int_param p.value with
    | some v => [DevCall.doubleCall ni.name v]
    | none => []
  | NodeType.INT =>
    match get_double_int_param p.value with
    | some v => [DevCall.intCall ni.name (truncToInt v)]
    | none => []
  | NodeType.BOOL =>
    match get_bool_int_param p.value with
    | some b => [DevCall.boolCall ni.name b]
    | none => []
  | NodeType.INVALID => []

/-- Processing of one parameter in the `parameterChanged` loop (lines
373-391): unknown logical names are ignored; with no driver handle a
warning is logged and the parameter skipped; a NOT_SET value is skipped;
otherwise `setParameter` runs (datatype above).  The result is the list of
device calls made for this parameter. -/
def processParam (pmap : List (String × NodeInfo)) (driverPresent : Bool)
    (p : Param) : List DevCall :=
  match lookupParam pmap p.name with
  | none => []
  | some ni =>
    if ¬driverPresent then []
    else if p.value = ParamValue.notSet then []
    else setParameterCalls ni p

/-- Result of `CameraDriver::parameterChanged` (lines 370-396): the
acknowledgment sent back to the configuration system, the device calls
made across the batch, and how many parameters had their device exception
caught and logged (`dev c = true` meaning the call throws). -/
structure ParamChangeOutcome where
  successful : Bool
  reason : String
  calls : List DevCall
  caughtCount : ℕ
  deriving DecidableEq

/-- One iteration of the `parameterChanged` batch loop: accumulate this
parameter's device calls and count it when one of them throws (the
exception is caught and logged by the per-parameter catch block). -/
def paramStep (pmap : List (String × NodeInfo)) (driverPresent : Bool)
    (dev : DevCall → Bool) (acc : List DevCall × ℕ) (p : Param) : List DevCall × ℕ :=
  let cs := processParam pmap driverPresent p
  (acc.1 ++ cs, acc.2 + (if cs.any dev then 1 else 0))

/-- `CameraDriver::parameterChanged` (lines 370-396): every parameter of
the batch is processed in order, each one's `setParameter` wrapped in its
own try/catch for the device exception; the returned result is
unconditionally `successful = true`, `reason = "all good!"`. -/
def parameterChanged (pmap : List (String × NodeInfo)) (driverPresent : Bool)
    (dev : DevCall → Bool) (params : List Param) : ParamChangeOutcome :=
  let r := params.foldl (paramStep pmap driverPresent dev) ([], 0)
  ⟨true, "all good!", r.1, r.2⟩

/-! ### Control-state synchronizer (`controlCallback`, lines 398-443) -/

/-- Device response to one `driver_->setDouble` call: either a thrown
`DriverException` or a returned status string with the read-back value. -/
inductive DevResult where
  | throws
  | given (msg : String) (retV : ℚ)
  deriving DecidableEq

/-- `currentExposureTime_` / `currentGain_` (header fields; the spec's
ControlState: unsigned integer microseconds, floating-point gain). -/
structure ControlState where
  currentExposureTime : ℕ
  currentGain : ℚ
  deriving DecidableEq

/-- `std::numeric_limits<float>::lowest()`, the gain sentinel, exactly. -/
def floatLowest : ℚ := -(2 ^ 128 - 2 ^ 104)

/-- Observable outcome of one `controlCallback` invocation: the control
state afterwards, the `setDouble` device writes attempted for the exposure
field and for the gain field, and whether a `DriverException` was caught
(and logged) by the callback's catch block. -/
structure CtrlOutcome where
  state : ControlState
  expWrites : List (String × ℚ)
  gainWrites : List (String × ℚ)
  caught : Bool
  deriving DecidableEq

/-- The exposure half of `controlCallback` (lines 411-421): when
`et > 0 && et != currentExposureTime_`, look up "exposure_time"; if
present, call `setDouble` on the device (whose returned status is
discarded) and, when the call returns instead of throwing, record
`currentExposureTime_ = et`; an absent registry entry only logs a warning.
Third component: whether the device call threw. -/
def expPhase (pmap : List (String × NodeInfo)) (dev : String → ℚ → DevResult)
    (st : ControlState) (et : ℕ) : ControlState × List (String × ℚ) × Bool :=
  if 0 < et ∧ et ≠ st.currentExposureTime then
    match lookupParam pmap "exposure_time" with
    | some ni =>
      match dev ni.name (et : ℚ) with
      | DevResult.throws => (st, [(ni.name, (et : ℚ))], true)
      | DevResult.given _ _ =>
        ({ st with currentExposureTime := et }, [(ni.name, (et : ℚ))], false)
    | none => (st, [], false)
  else (st, [], false)

/-- The gain half of `controlCallback` (lines 422-432), symmetric to
`expPhase` with the sentinel guard
`gain > std::numeric_limits<float>::lowest() && gain != currentGain_`. -/
def gainPhase (pmap : List (String × NodeInfo)) (dev : String → ℚ → DevResult)
    (st : ControlState) (gain : ℚ) : ControlState × List (String × ℚ) × Bool :=
  if floatLowest < gain ∧ gain ≠ st.currentGain then
    match lookupParam pmap "gain" with
    | some ni =>
      match dev ni.name gain with
      | DevResult.throws => (st, [(ni.name, gain)], true)
      | DevResult.given _ _ =>
        ({ st with currentGain := gain }, [(ni.name, gain)], false)
    | none => (st, [], false)
  else (st, [], false)

/-- `CameraDriver::controlCallback` (lines 398-443): the exposure block
runs first; both blocks sit inside one try/catch for `DriverException`, so
a throw during the exposure apply transfers control to the catch block and
the gain block never runs, while a throw during the gain apply leaves the
already-performed exposure update in place.  Either way the exception is
caught and logged, never propagated. -/
def controlCallback (pmap : List (String × NodeInfo)) (dev : String → ℚ → DevResult)
    (st : ControlState) (et : ℕ) (gain : ℚ) : CtrlOutcome :=
  let e := expPhase pmap dev st et
  if e.2.2 then
    ⟨e.1, e.2.1, [], true⟩
  else
    let g := gainPhase pmap dev e.1 gain
    ⟨g.1, e.2.1, g.2.1, g.2.2⟩

/-! ### Status report (`printStatus`) -/

/-- Drop-rate computation of `CameraDriver::printStatus` (lines 162-165):
`droppedCount / publishedCount` when anything was published, else 0. -/
def dropRate (publishedCount droppedCount : ℕ) : ℚ :=
  if 0 < publishedCount then (droppedCount : ℚ) / (publishedCount : ℚ) else 0

/-- `CameraDriver::printStatus` (lines 159-179).  Inputs: whether the
driver handle exists, the two counters, the elapsed nanoseconds `dtns`,
and the device-reported input rate.  Output: the logged triple (in-rate,
out-rate, drop-rate) when the driver is present (`none` means only the
"not online" warning was logged), paired with the counters after the call
(reset to zero exactly when the report was computed). -/
def printStatus (driverPresent : Bool) (publishedCount droppedCount : ℕ)
    (dtns : ℤ) (inRate : ℚ) : Option (ℚ × ℚ × ℚ) × ℕ × ℕ :=
  if driverPresent then
    (some (inRate,
           (publishedCount : ℚ) * 1000000000 / ((max dtns 1 : ℤ) : ℚ),
           dropRate publishedCount droppedCount),
     0, 0)
  else
    (none, publishedCount, droppedCount)

/-! ### Startup (`start`) -/

/-- Observable outcome of `CameraDriver::start` (lines 561-648): the
returned status, whether the camera parameters were declared
(`createCameraParameters`), and whether acquisition was started
(`startCamera` succeeded). -/
structure StartOutcome where
  success : Bool
  paramsCreated : Bool
  cameraStarted : Bool
  deriving DecidableEq

/-- The discovery retry loop (lines 608-624): tries 1 through 5; found iff
the serial shows up on some try. -/
def findCamera (camAvailable : ℕ → Bool) : Bool :=
  (List.range' 1 5).any camAvailable

/-- Decision structure of `CameraDriver::start` (lines 561-648):
an unreadable parameter file returns false; a camera not found after the
5-try loop returns false; otherwise, if `initCamera` succeeds the
parameters are created and the camera started, and if `initCamera` fails
only an error is logged — the function still returns true. -/
def start (paramFileOk : Bool) (camAvailable : ℕ → Bool)
    (initOk startCameraOk : Bool) : StartOutcome :=
  if ¬paramFileOk then ⟨false, false, false⟩
  else if ¬findCamera camAvailable then ⟨false, false, false⟩
  else if initOk then ⟨true, true, startCameraOk⟩
  else ⟨true, false, false⟩

/-! ### Helper lemmas -/

/-- A push keeps the queue within the capacity of 2. -/
lemma publishImage_length_le {α : Type} (st : QueueState α) (im : α)
    (h : st.imageQueue.length ≤ 2) : (publishImage st im).imageQueue.length ≤ 2 := by
  unfold publishImage
  split
  · rename_i hlt
    simp only [List.length_append, List.length_cons, List.length_nil]
    omega
  · simpa using h

/-- A pop never grows the queue. -/
lemma popImage_length_le {α : Type} (st : QueueState α)
    (h : st.imageQueue.length ≤ 2) : ((popImage st).2).imageQueue.length ≤ 2 := by
  unfold popImage
  split
  · simpa using h
  · simp only
    calc st.imageQueue.dropLast.length ≤ st.imageQueue.length := by
          rw [List.length_dropLast]; omega
      _ ≤ 2 := h

/-- Any interleaving of pushes and pops preserves the capacity bound. -/
lemma runOps_length_le {α : Type} (ops : List (QueueOp α)) :
    ∀ (st : QueueState α), st.imageQueue.length ≤ 2 →
      (runOps ops st).imageQueue.length ≤ 2 := by
  induction ops with
  | nil => intro st h; exact h
  | cons op ops ih =>
    intro st h
    have : runOps (op :: ops) st = runOps ops (applyOp st op) := rfl
    rw [this]
    apply ih
    cases op with
    | push im => exact publishImage_length_le st im h
    | pop => exact popImage_length_le st h

/-- The gain half of the control callback never touches the exposure
field. -/
lemma gainPhase_exposure_fixed (pmap : List (String × NodeInfo))
    (dev : String → ℚ → DevResult) (st : ControlState) (gain : ℚ) :
    (gainPhase pmap dev st gain).1.currentExposureTime = st.currentExposureTime := by
  unfold gainPhase
  split
  · cases hl : lookupParam pmap "gain" with
    | none => simp [hl]
    | some ni => cases hd : dev ni.name gain <;> simp [hl, hd]
  · simp

/-- The exposure half of the control callback never touches the gain
field. -/
lemma expPhase_gain_fixed (pmap : List (String × NodeInfo))
    (dev : String → ℚ → DevResult) (st : ControlState) (et : ℕ) :
    (expPhase pmap dev st et).1.currentGain = st.currentGain := by
  unfold expPhase
  split
  · cases hl : lookupParam pmap "exposure_time" with
    | none => simp [hl]
    | some ni => cases hd : dev ni.name (et : ℚ) <;> simp [hl, hd]
  · simp

/-- After a non-throwing exposure phase, re-running the exposure phase
from any state carrying the resulting exposure value does nothing: either
the guard already failed (and the state was left alone) or the apply
recorded `et` and the inequality guard now fails, or the registry entry is
still missing. -/
lemma expPhase_fixpoint (pmap : List (String × NodeInfo))
    (dev : String → ℚ → DevResult) (st : ControlState) (et : ℕ)
    (st2 : ControlState)
    (he : (expPhase pmap dev st et).2.2 = false)
    (h2 : st2.currentExposureTime = (expPhase pmap dev st et).1.currentExposureTime) :
    expPhase pmap dev st2 et = (st2, [], false) := by
  by_cases hc : 0 < et ∧ et ≠ st.currentExposureTime
  · cases hl : lookupParam pmap "exposure_time" with
    | none =>
      have h1 : (expPhase pmap dev st et).1 = st := by simp [expPhase, hc, hl]
      rw [h1] at h2
      unfold expPhase
      split
      · rw [hl]
      · rfl
    | some ni =>
      cases hd : dev ni.name (et : ℚ) with
      | throws => simp [expPhase, hc, hl, hd] at he
      | given m r =>
        have h1 : (expPhase pmap dev st et).1.currentExposureTime = et := by
          simp [expPhase, hc, hl, hd]
        rw [h1] at h2
        unfold expPhase
        rw [if_neg]
        intro hcc
        exact hcc.2 h2.symm
  · have h1 : (expPhase pmap dev st et).1 = st := by simp [expPhase, hc]
    rw [h1] at h2
    unfold expPhase
    rw [if_neg]
    rw [h2]
    exact hc

/-- After a non-throwing gain phase, re-running the gain phase from any
state carrying the resulting gain value does nothing. -/
lemma gainPhase_fixpoint (pmap : List (String × NodeInfo))
    (dev : String → ℚ → DevResult) (st : ControlState) (gain : ℚ)
    (st2 : ControlState)
    (he : (gainPhase pmap dev st gain).2.2 = false)
    (h2 : st2.currentGain = (gainPhase pmap dev st gain).1.currentGain) :
    gainPhase pmap dev st2 gain = (st2, [], false) := by
  by_cases hc : floatLowest < gain ∧ gain ≠ st.currentGain
  · cases hl : lookupParam pmap "gain" with
    | none =>
      have h1 : (gainPhase pmap dev st gain).1 = st := by simp [gainPhase, hc, hl]
      rw [h1] at h2
      unfold gainPhase
      split
      · rw [hl]
      · rfl
    | some ni =>
      cases hd : dev ni.name gain with
      | throws => simp [gainPhase, hc, hl, hd] at he
      | given m r =>
        have h1 : (gainPhase pmap dev st gain).1.currentGain = gain := by
          simp [gainPhase, hc, hl, hd]
        rw [h1] at h2
        unfold gainPhase
        rw [if_neg]
        intro hcc
        exact hcc.2 h2.symm
  · have h1 : (gainPhase pmap dev st gain).1 = st := by simp [gainPhase, hc]
    rw [h1] at h2
    unfold gainPhase
    rw [if_neg]
    rw [h2]
    exact hc

/-- A parameter processed to no device calls leaves the batch fold
unchanged. -/
lemma paramStep_skip (pmap : List (String × NodeInfo)) (driverPresent : Bool)
    (dev : DevCall → Bool) (p : Param)
    (hp : processParam pmap driverPresent p = []) (acc : List DevCall × ℕ) :
    paramStep pmap driverPresent dev acc p = acc := by
  simp [paramStep, hp]

/-- The registered-names list and warning count of the registry fold, for
any starting state: names of well-formed lines are appended in file order,
and exactly the warned lines bump the warning counter. -/
lemma processLine_foldl (lines : List (List String)) :
    ∀ (st : RegistryState),
      (lines.foldl processLine st).parameterList
        = st.parameterList ++ (lines.filter wellFormedLine).map firstToken
    ∧ (lines.foldl processLine st).warnCount
        = st.warnCount + (lines.filter warnedLine).length := by
  induction lines with
  | nil => intro st; simp
  | cons l ls ih =>
    intro st
    have hfold : (l :: ls).foldl processLine st = ls.foldl processLine (processLine st l) := rfl
    rw [hfold]
    rcases (ih (processLine st l)) with ⟨ihl, ihw⟩
    cases l with
    | nil =>
      simpa [processLine, wellFormedLine, warnedLine] using ih st
    | cons t0 rest =>
      by_cases hcm : ¬t0.isEmpty ∧ t0.front = '#'
      · simpa [processLine, wellFormedLine, warnedLine, hcm] using ih st
      · have hcm2 : ¬(t0.isEmpty = false ∧ t0.front = '#') := by simpa using hcm
        match rest with
        | [t1, t2] =>
          refine ⟨?_, ?_⟩
          · rw [ihl]
            simp [processLine, wellFormedLine, firstToken, hcm, hcm2]
          · rw [ihw]
            simp [processLine, warnedLine, hcm, hcm2]
        | [] =>
          refine ⟨?_, ?_⟩
          · rw [ihl]
            simp [processLine, wellFormedLine, hcm, hcm2]
          · rw [ihw]
            simp [processLine, warnedLine, hcm, hcm2]
            omega
        | [t1] =>
          refine ⟨?_, ?_⟩
          · rw [ihl]
            simp [processLine, wellFormedLine, hcm, hcm2]
          · rw [ihw]
            simp [processLine, warnedLine, hcm, hcm2]
            omega
        | t1 :: t2 :: t3 :: rr =>
          refine ⟨?_, ?_⟩
          · rw [ihl]
            simp [processLine, wellFormedLine, hcm, hcm2]
          · rw [ihw]
            simp [processLine, warnedLine, hcm, hcm2]
            omega

/-- A control callback, both of whose phases act as identities on a state,
does nothing from that state. -/
lemma controlCallback_noop (pmap : List (String × NodeInfo))
    (dev : String → ℚ → DevResult) (st : ControlState) (et : ℕ) (gain : ℚ)
    (h1 : expPhase pmap dev st et = (st, [], false))
    (h2 : gainPhase pmap dev st gain = (st, [], false)) :
    controlCallback pmap dev st et gain = ⟨st, [], [], false⟩ := by
  simp [controlCallback, h1, h2]

/-! ### Claim theorems -/

/-- Claim C4: for every sequence of push and pop operations starting from
the empty queue, the queue's size never exceeds the capacity of 2; and a
push into a queue already holding (at least) 2 frames leaves the queued
frames untouched — the incoming frame is discarded — and increments the
drop counter.  The push is a total function of the pre-lock state, so it
never blocks the producer. -/
theorem c4_queue_bounded_drop : ∀ (α : Type) (ops : List (QueueOp α)),
    (runOps ops (⟨[], 0⟩ : QueueState α)).imageQueue.length ≤ 2
  ∧ ∀ (st : QueueState α) (im : α), 2 ≤ st.imageQueue.length →
      publishImage st im = ⟨st.imageQueue, st.droppedCount + 1⟩ := by
  intro α ops
  constructor
  · exact runOps_length_le ops ⟨[], 0⟩ (by simp)
  · intro st im h
    unfold publishImage
    rw [if_neg (by omega)]

/-- Claim C4 witness: a concrete interleaving respects the bound, and a
concrete full-queue push drops the incoming frame and counts it. -/
theorem c4_witness :
    (runOps [QueueOp.push 1, QueueOp.push 2, QueueOp.push 3, QueueOp.pop]
      (⟨[], 0⟩ : QueueState ℕ)).imageQueue.length ≤ 2
  ∧ publishImage (⟨[5, 6], 0⟩ : QueueState ℕ) 7 = ⟨[5, 6], 1⟩ :=
  ⟨(c4_queue_bounded_drop ℕ [QueueOp.push 1, QueueOp.push 2, QueueOp.push 3, QueueOp.pop]).1,
   (c4_queue_bounded_drop ℕ []).2 ⟨[5, 6], 0⟩ 7 (by decide)⟩

/-- Claim C5: pushing F1, F2, F3 into the empty capacity-2 queue leaves
[F1, F2] with drop counter 1, and a subsequent pop returns F2; in general
the consumer pop removes and returns the most recently pushed frame (the
last element). -/
theorem c5_newest_first : ∀ (α : Type) (f1 f2 f3 : α),
    runOps [QueueOp.push f1, QueueOp.push f2, QueueOp.push f3]
      (⟨[], 0⟩ : QueueState α) = ⟨[f1, f2], 1⟩
  ∧ popImage (⟨[f1, f2], 1⟩ : QueueState α) = (some f2, ⟨[f1], 1⟩)
  ∧ ∀ (st : QueueState α), st.imageQueue ≠ [] →
      (popImage st).1 = st.imageQueue.getLast?
    ∧ (popImage st).2.imageQueue = st.imageQueue.dropLast := by
  intro α f1 f2 f3
  refine ⟨rfl, rfl, ?_⟩
  intro st hne
  cases hq : st.imageQueue with
  | nil => exact absurd hq hne
  | cons a as => simp [popImage, hq]

/-- Claim C5 witness: the concrete three-push run and a concrete pop. -/
theorem c5_witness :
    runOps [QueueOp.push 1, QueueOp.push 2, QueueOp.push 3]
      (⟨[], 0⟩ : QueueState ℕ) = ⟨[1, 2], 1⟩
  ∧ (popImage (⟨[4], 0⟩ : QueueState ℕ)).1 = ([4] : List ℕ).getLast? :=
  ⟨(c5_newest_first ℕ 1 2 3).1,
   ((c5_newest_first ℕ 1 2 3).2.2 ⟨[4], 0⟩ (by decide)).1⟩

/-- Claim C6: the float setting apply reports success iff the device
reported "OK" and the read-back value agrees with the request within the
relative tolerance `0.025 * |v + retV|`; requested 100 with read-back
102.4 succeeds, requested 100 with read-back 110 fails. -/
theorem c6_setDouble_tolerance : ∀ (v retV : ℚ) (msg : String),
    (setDouble v retV msg = true ↔
      msg = "OK" ∧ |v - retV| ≤ (0.025 : ℚ) * |v + retV|)
  ∧ setDouble 100 (512 / 5) "OK" = true
  ∧ setDouble 100 110 "OK" = false := by
  intro v retV msg
  refine ⟨?_, ?_, ?_⟩
  · simp only [setDouble]
    split_ifs with h1 h2
    · simp only [Bool.false_eq_true, false_iff]
      rintro ⟨-, hle⟩
      exact absurd h1 (not_lt.mpr hle)
    · simp only [Bool.false_eq_true, false_iff]
      rintro ⟨hmsg, -⟩
      exact h2 hmsg
    · simp only [true_iff]
      exact ⟨not_not.mp h2, not_lt.mp h1⟩
  · norm_num [setDouble]
    rw [show |(12 / 5 : ℚ)| = 12 / 5 from abs_of_nonneg (by norm_num),
        show |(1012 / 5 : ℚ)| = 1012 / 5 from abs_of_nonneg (by norm_num)]
    norm_num
  · norm_num [setDouble]

/-- Claim C6 witness: a perfectly echoed request verifies, via the
tolerance characterization. -/
theorem c6_witness : setDouble 3 3 "OK" = true :=
  (c6_setDouble_tolerance 3 3 "OK").1.mpr
    ⟨rfl, by
      rw [show (3 : ℚ) - 3 = 0 from by norm_num]
      rw [abs_zero]
      positivity⟩

/-- Claim C7: loading a readable parameter file registers exactly the
well-formed lines (3 tokens, not a comment, not blank), in declaration
order, under their first token; every non-blank non-comment line with a
different token count logs one warning and is skipped; the load itself
always succeeds on a readable file, and fails exactly when the file cannot
be opened. -/
theorem c7_parameter_file_load :
    readParameterFile none = none
  ∧ ∀ (lines : List (List String)),
      readParameterFile (some lines) = some (lines.foldl processLine ⟨[], [], 0⟩)
    ∧ (lines.foldl processLine ⟨[], [], 0⟩).parameterList
        = (lines.filter wellFormedLine).map firstToken
    ∧ (lines.foldl processLine ⟨[], [], 0⟩).warnCount
        = (lines.filter warnedLine).length := by
  refine ⟨rfl, ?_⟩
  intro lines
  rcases processLine_foldl lines ⟨[], [], 0⟩ with ⟨hl, hw⟩
  exact ⟨rfl, by simpa using hl, by simpa using hw⟩

/-- Claim C8: with nothing published in the interval the drop rate is 0
(no division is attempted), the report still completes and resets the
counters; with a nonzero published count the drop rate is the quotient of
the counters. -/
theorem c8_drop_rate_safety : ∀ (p d : ℕ) (dtns : ℤ) (inRate : ℚ),
    dropRate 0 d = 0
  ∧ (0 < p → dropRate p d = (d : ℚ) / (p : ℚ))
  ∧ printStatus true 0 d dtns inRate = (some (inRate, 0, 0), 0, 0) := by
  intro p d dtns inRate
  refine ⟨by simp [dropRate], fun h => by simp [dropRate, h], ?_⟩
  simp [printStatus, dropRate]

/-- Claim C8 witness: the drop rate over a concrete busy interval. -/
theorem c8_witness : dropRate 5 3 = (3 : ℚ) / 5 :=
  (c8_drop_rate_safety 5 3 0 0).2.1 (by norm_num)

/-- Claim C9: the configuration-change handler acknowledges every batch as
successful, whatever the registry contents, driver availability, device
(throwing) behavior, and batch contents. -/
theorem c9_batch_always_acknowledged : ∀ (pmap : List (String × NodeInfo))
    (driverPresent : Bool) (dev : DevCall → Bool) (params : List Param),
    (parameterChanged pmap driverPresent dev params).successful = true
  ∧ (parameterChanged pmap driverPresent dev params).reason = "all good!" :=
  fun _ _ _ _ => ⟨rfl, rfl⟩

/-- Claim C10: a parameter whose logical name is not in the registry, or
arriving without a driver handle, or carrying a NOT_SET value, produces no
device call, leaves the batch's accumulated calls exactly as if it were
absent, and the batch is still acknowledged as successful. -/
theorem c10_skip_unmatched_params : ∀ (pmap : List (String × NodeInfo))
    (driverPresent : Bool) (dev : DevCall → Bool) (p : Param)
    (ps1 ps2 : List Param),
    (lookupParam pmap p.name = none ∨ driverPresent = false
      ∨ p.value = ParamValue.notSet) →
    processParam pmap driverPresent p = []
  ∧ parameterChanged pmap driverPresent dev (ps1 ++ p :: ps2)
      = parameterChanged pmap driverPresent dev (ps1 ++ ps2)
  ∧ (parameterChanged pmap driverPresent dev (ps1 ++ p :: ps2)).successful = true := by
  intro pmap driverPresent dev p ps1 ps2 h
  have hp : processParam pmap driverPresent p = [] := by
    rcases h with h | h | h
    · simp [processParam, h]
    · cases hl : lookupParam pmap p.name <;> simp [processParam, hl, h]
    · cases hl : lookupParam pmap p.name <;> cases driverPresent <;>
        simp [processParam, hl, h]
  have hstep : ∀ acc, paramStep pmap driverPresent dev acc p = acc :=
    paramStep_skip pmap driverPresent dev p hp
  refine ⟨hp, ?_, rfl⟩
  simp [parameterChanged, List.foldl_append, hstep]

/-- Claim C10 witness: a parameter absent from the registry is skipped and
the surrounding batch is unchanged and acknowledged. -/
theorem c10_witness :
    processParam [("gain", ⟨"Gain", NodeType.FLOAT⟩)] true ⟨"unknown", ParamValue.int 1⟩ = []
  ∧ (parameterChanged [("gain", ⟨"Gain", NodeType.FLOAT⟩)] true (fun _ => false)
      ([] ++ ⟨"unknown", ParamValue.int 1⟩ :: [])).successful = true :=
  ⟨(c10_skip_unmatched_params [("gain", ⟨"Gain", NodeType.FLOAT⟩)] true (fun _ => false)
      ⟨"unknown", ParamValue.int 1⟩ [] [] (Or.inl (by decide))).1,
   (c10_skip_unmatched_params [("gain", ⟨"Gain", NodeType.FLOAT⟩)] true (fun _ => false)
      ⟨"unknown", ParamValue.int 1⟩ [] [] (Or.inl (by decide))).2.2⟩

/-- Claim C1 counterexample: a control command due to apply both fields
(exposure 0 → 5000; gain 0 → 2, with "gain" present in the registry and
the gain guard satisfied), where the device throws on the exposure apply.
The exception is caught (`caught = true`, state rolled back), but the gain
write list is empty: the gain field was NOT attempted, refuting the
claimed failure isolation. -/
theorem c1_counterexample :
    (floatLowest < 2 ∧ (2 : ℚ) ≠ 0)
  ∧ lookupParam [("exposure_time", ⟨"ExposureTime", NodeType.FLOAT⟩),
      ("gain", ⟨"Gain", NodeType.FLOAT⟩)] "gain" = some ⟨"Gain", NodeType.FLOAT⟩
  ∧ controlCallback
      [("exposure_time", ⟨"ExposureTime", NodeType.FLOAT⟩),
       ("gain", ⟨"Gain", NodeType.FLOAT⟩)]
      (fun n _ => if n = "ExposureTime" then DevResult.throws else DevResult.given "OK" 2)
      ⟨0, 0⟩ 5000 2
      = ⟨⟨0, 0⟩, [("ExposureTime", 5000)], [], true⟩ := by
  refine ⟨⟨by norm_num [floatLowest], by norm_num⟩, by decide, ?_⟩
  norm_num [controlCallback, expPhase, gainPhase, lookupParam]

/-- Claim C1 amended: both fields' applies sit inside one try/catch, so a
device exception during either apply is caught and logged and never
escapes the callback; an exception during the gain apply leaves the
already-performed exposure update intact, but an exception during the
exposure apply skips the gain field entirely (no failure isolation between
the two fields). -/
theorem c1_exception_scope : ∀ (pmap : List (String × NodeInfo))
    (dev : String → ℚ → DevResult) (st : ControlState) (et : ℕ) (gain : ℚ)
    (ni : NodeInfo),
    ((0 < et ∧ et ≠ st.currentExposureTime) →
      lookupParam pmap "exposure_time" = some ni →
      dev ni.name (et : ℚ) = DevResult.throws →
      controlCallback pmap dev st et gain = ⟨st, [(ni.name, (et : ℚ))], [], true⟩)
  ∧ ((expPhase pmap dev st et).2.2 = false →
      (floatLowest < gain ∧ gain ≠ (expPhase pmap dev st et).1.currentGain) →
      lookupParam pmap "gain" = some ni →
      dev ni.name gain = DevResult.throws →
      controlCallback pmap dev st et gain
        = ⟨(expPhase pmap dev st et).1, (expPhase pmap dev st et).2.1,
           [(ni.name, gain)], true⟩) := by
  intro pmap dev st et gain ni
  constructor
  · intro hc hl hd
    have he : expPhase pmap dev st et = (st, [(ni.name, (et : ℚ))], true) := by
      unfold expPhase
      rw [if_pos hc, hl]
      simp only [hd]
    simp [controlCallback, he]
  · intro he hg hl hd
    have hgp : gainPhase pmap dev (expPhase pmap dev st et).1 gain
        = ((expPhase pmap dev st et).1, [(ni.name, gain)], true) := by
      unfold gainPhase
      rw [if_pos hg, hl]
      simp only [hd]
    simp [controlCallback, he, hgp]

/-- Claim C1 amended witness: with the exposure registry entry present and
a device that always throws, a concrete command applies neither field but
catches the exception. -/
theorem c1_witness :
    controlCallback [("exposure_time", ⟨"ExposureTime", NodeType.FLOAT⟩)]
      (fun _ _ => DevResult.throws) ⟨0, 0⟩ 10 0
      = ⟨⟨0, 0⟩, [("ExposureTime", (10 : ℕ))], [], true⟩ :=
  (c1_exception_scope [("exposure_time", ⟨"ExposureTime", NodeType.FLOAT⟩)]
    (fun _ _ => DevResult.throws) ⟨0, 0⟩ 10 0 ⟨"ExposureTime", NodeType.FLOAT⟩).1
    (by decide) (by decide) rfl

/-- Claim C2 counterexample: parameter file readable, camera found on
every try, but `initCamera` fails — `start` still returns success, so
startup is not aborted by a device init failure. -/
theorem c2_counterexample :
    findCamera (fun _ => true) = true
  ∧ (start true (fun _ => true) false false).success = true := by
  decide

/-- Claim C2 amended: an unreadable parameter file or a camera not found
within the 5 retries abort startup (`start` returns false), but a failed
`initCamera` only logs an error: `start` still returns true (the node
comes up), merely without declaring the camera parameters or starting
acquisition. -/
theorem c2_startup_fatality : ∀ (camAvailable : ℕ → Bool) (initOk startCameraOk : Bool),
    (start false camAvailable initOk startCameraOk).success = false
  ∧ (findCamera camAvailable = false →
      (start true camAvailable initOk startCameraOk).success = false)
  ∧ (findCamera camAvailable = true →
      (start true camAvailable initOk startCameraOk).success = true)
  ∧ (start true camAvailable false startCameraOk).paramsCreated = false
  ∧ (start true camAvailable false startCameraOk).cameraStarted = false := by
  intro camAvailable initOk startCameraOk
  refine ⟨by simp [start], fun h => by simp [start, h], fun h => ?_, ?_, ?_⟩
  · cases initOk <;> simp [start, h]
  · cases hf : findCamera camAvailable <;> simp [start, hf]
  · cases hf : findCamera camAvailable <;> simp [start, hf]

/-- Claim C2 amended witness: camera absent on all 5 tries aborts
startup. -/
theorem c2_witness : (start true (fun _ => false) true true).success = false :=
  (c2_startup_fatality (fun _ => false) true true).2.1 (by decide)

/-- Claim C3 counterexample: the device answers the exposure apply with a
failure status ("FAIL", so the verified apply `setDouble` reports false),
yet `currentExposureTime_` is still updated to the commanded 5000 — the
ControlState field is updated whenever the device call returns, not
exactly when the apply succeeds. -/
theorem c3_counterexample :
    setDouble 5000 5000 "FAIL" = false
  ∧ (controlCallback [("exposure_time", ⟨"ExposureTime", NodeType.FLOAT⟩)]
      (fun _ v => DevResult.given "FAIL" v) ⟨0, 0⟩ 5000 0).state.currentExposureTime
      = 5000 := by
  constructor
  · norm_num [setDouble]
    decide
  · norm_num [controlCallback, expPhase, gainPhase, lookupParam]

/-- Claim C3 amended: exposure is applied only when `et > 0` and `et`
differs from the current value, gain only when above the float sentinel
and different from the current value (and an untouched field's state is
unchanged); the ControlState field is updated whenever the device call
returns without throwing — regardless of the verification status the
apply reports; consequently, after a callback that caught no exception, an
identical second command performs no device write and leaves the state
unchanged. -/
theorem c3_gating_and_idempotence : ∀ (pmap : List (String × NodeInfo))
    (dev : String → ℚ → DevResult) (st : ControlState) (et : ℕ) (gain : ℚ),
    (¬(0 < et ∧ et ≠ st.currentExposureTime) →
       (controlCallback pmap dev st et gain).expWrites = []
     ∧ (controlCallback pmap dev st et gain).state.currentExposureTime
         = st.currentExposureTime)
  ∧ (¬(floatLowest < gain ∧ gain ≠ st.currentGain) →
       (controlCallback pmap dev st et gain).gainWrites = []
     ∧ (controlCallback pmap dev st et gain).state.currentGain = st.currentGain)
  ∧ (∀ (ni : NodeInfo) (msg : String) (retV : ℚ),
       (0 < et ∧ et ≠ st.currentExposureTime) →
       lookupParam pmap "exposure_time" = some ni →
       dev ni.name (et : ℚ) = DevResult.given msg retV →
       (controlCallback pmap dev st et gain).state.currentExposureTime = et)
  ∧ ((controlCallback pmap dev st et gain).caught = false →
       controlCallback pmap dev (controlCallback pmap dev st et gain).state et gain
         = ⟨(controlCallback pmap dev st et gain).state, [], [], false⟩) := by
  intro pmap dev st et gain
  refine ⟨?_, ?_, ?_, ?_⟩
  · intro hc
    have he : expPhase pmap dev st et = (st, [], false) := by
      unfold expPhase
      rw [if_neg hc]
    constructor
    · simp [controlCallback, he]
    · simp [controlCallback, he, gainPhase_exposure_fixed]
  · intro hg
    cases he : (expPhase pmap dev st et).2.2 with
    | true =>
      constructor
      · simp [controlCallback, he]
      · simp [controlCallback, he, expPhase_gain_fixed]
    | false =>
      have hg2 : gainPhase pmap dev (expPhase pmap dev st et).1 gain
          = ((expPhase pmap dev st et).1, [], false) := by
        unfold gainPhase
        rw [if_neg]
        rw [expPhase_gain_fixed]
        exact hg
      constructor
      · simp [controlCallback, he, hg2]
      · simp [controlCallback, he, hg2, expPhase_gain_fixed]
  · intro ni msg retV hc hl hd
    have he : expPhase pmap dev st et
        = ({ st with currentExposureTime := et }, [(ni.name, (et : ℚ))], false) := by
      unfold expPhase
      rw [if_pos hc, hl]
      simp only [hd]
    simp [controlCallback, he, gainPhase_exposure_fixed]
  · intro hcaught
    cases he : (expPhase pmap dev st et).2.2 with
    | true => simp [controlCallback, he] at hcaught
    | false =>
      have hgf : (gainPhase pmap dev (expPhase pmap dev st et).1 gain).2.2 = false := by
        by_contra hgt
        have hgt2 : (gainPhase pmap dev (expPhase pmap dev st et).1 gain).2.2 = true := by
          revert hgt
          cases (gainPhase pmap dev (expPhase pmap dev st et).1 gain).2.2 <;> simp
        simp [controlCallback, he, hgt2] at hcaught
      have hstate : (controlCallback pmap dev st et gain).state
          = (gainPhase pmap dev (expPhase pmap dev st et).1 gain).1 := by
        simp [controlCallback, he]
      have hexp2 : expPhase pmap dev (controlCallback pmap dev st et gain).state et
          = ((controlCallback pmap dev st et gain).state, [], false) := by
        apply expPhase_fixpoint pmap dev st et _ he
        rw [hstate]
        exact gainPhase_exposure_fixed pmap dev (expPhase pmap dev st et).1 gain
      have hgain2 : gainPhase pmap dev (controlCallback pmap dev st et gain).state gain
          = ((controlCallback pmap dev st et gain).state, [], false) := by
        apply gainPhase_fixpoint pmap dev (expPhase pmap dev st et).1 gain _ hgf
        rw [hstate]
      exact controlCallback_noop pmap dev
        (controlCallback pmap dev st et gain).state et gain hexp2 hgain2

/-- Claim C3 amended witness: a command with exposure 0 (unset sentinel)
touches neither the exposure write list nor the stored exposure time. -/
theorem c3_witness :
    (controlCallback [("exposure_time", ⟨"ExposureTime", NodeType.FLOAT⟩)]
      (fun _ v => DevResult.given "OK" v) ⟨0, 0⟩ 0 1).expWrites = []
  ∧ (controlCallback [("exposure_time", ⟨"ExposureTime", NodeType.FLOAT⟩)]
      (fun _ v => DevResult.given "OK" v) ⟨0, 0⟩ 0 1).state.currentExposureTime = 0 :=
  (c3_gating_and_idempotence [("exposure_time", ⟨"ExposureTime", NodeType.FLOAT⟩)]
    (fun _ v => DevResult.given "OK" v) ⟨0, 0⟩ 0 1).1 (by decide)

end FlirSpinnaker
